import Mathlib

/-!
Verification development for the Sprout Social analytics to Google Sheets
synchronization pipeline (group-analytics.js and the platform modules).
JavaScript values that matter to the claims are embedded shallowly:
numbers as exact rationals or integers, the sparse metric payloads as
association lists, asynchronous I/O as explicit state passing, and thrown
exceptions as Except / early-return values.
-/

/-- JavaScript primitive value restricted to the shapes that occur in the
profile-id fields of this program: a number or a string.  Strict equality
(`===`) between two such values is modelled by decidable equality of the
inductive, which is false across the two constructors, exactly as in JS. -/
inductive JSVal where
  | num (n : Int)
  | str (s : String)
deriving DecidableEq, Repr

/-- Truthiness of a JSVal under JavaScript coercion: 0 and the empty string
are falsy, every other number or string is truthy. -/
def jsTruthy : JSVal → Bool
  | .num n => n != 0
  | .str s => s != ""

/-- Template-literal stringification of a JSVal, as in the expression
`\x7bcustomerProfileId\x7d_\x7bdate\x7d` of group-analytics.js. -/
def jsvalToString : JSVal → String
  | .num n => toString n
  | .str s => s

/-- Leading-integer parse of a string, modelling the JavaScript global
parseInt for the argument shapes reachable here: an optional minus sign
followed by decimal digits; any other leading character yields NaN,
modelled as none. -/
def parseIntStr (s : String) : Option Int :=
  let core := fun (cs : List Char) (neg : Bool) =>
    let digits := cs.takeWhile Char.isDigit
    if digits.isEmpty then (none : Option Int)
    else
      let v : Nat := digits.foldl (fun acc c => acc * 10 + (c.toNat - 48)) 0
      some (if neg then -(v : Int) else (v : Int))
  match s.data with
  | '-' :: cs => core cs true
  | cs => core cs false

/-- JavaScript parseInt applied to a JSVal: a number is stringified and
reparsed, which for the integral numbers used as profile ids is the
identity; a string is parsed by `parseIntStr`.  The none result models
NaN, which is never strictly equal to anything. -/
def jsParseInt : JSVal → Option Int
  | .num n => some n
  | .str s => parseIntStr s

/-- Metric payload of one data point: a sparse mapping from metric name to
numeric value (group-analytics.js receives it as a JSON object).  Numbers
are modelled as exact rationals. -/
abbrev Metrics := List (String × ℚ)

/-- Reading `metrics[k] || 0`: an absent key (and the falsy value 0) give
0.  The same function also models the safeNumber helper of utils/api.js
(not present in the source tree), which per the spec treats a metric
absent from the payload as zero. -/
def getMetric (m : Metrics) (k : String) : ℚ :=
  (m.lookup k).getD 0

/-- Dimensions block of an analytics data point, with the two reporting
period spellings the code probes for. -/
structure Dimensions where
  customer_profile_id : Option JSVal
  reporting_period_by_day : Option String
  reporting_period : Option String
deriving DecidableEq, Repr

/-- One data point returned by the analytics endpoint.  A missing
dimensions or metrics block is modelled with none. -/
structure DataPoint where
  dimensions : Option Dimensions
  metrics : Option Metrics
deriving DecidableEq, Repr

/-- Profile metadata record.  The customer_profile_id is kept as a raw
JSVal because the claims hinge on whether it is stored as a number or as
a string. -/
structure Profile where
  name : String
  network_type : String
  network_id : String
  customer_profile_id : JSVal
deriving DecidableEq, Repr

/-- JavaScript `a || b` for optional strings: the empty string counts as
falsy and falls through to the second operand. -/
def jsOrStr (a b : Option String) : Option String :=
  match a with
  | some s => if s = "" then b else some s
  | none => b

/-- Resolution of the reporting period from the dimensions block, as in
`dimensions["reporting_period.by(day)"] || dimensions.reporting_period`. -/
def resolveReportingPeriod (dims : Dimensions) : Option String :=
  jsOrStr dims.reporting_period_by_day dims.reporting_period

/-- Date part of an ISO timestamp string, modelling
`new Date(s).toISOString().split("T")[0]` for UTC inputs (the reporting
periods arrive as ISO strings; the construction-and-reformat round trip
keeps the date part). -/
def jsIsoDate (s : String) : String :=
  String.mk (s.data.takeWhile (fun c => c ≠ 'T'))

/-! ## RowRouter: network type mapping and profile resolution -/

/-- Canonical platform modules available in group-analytics.js
(networkModules object, line 821). -/
inductive Network where
  | instagram
  | youtube
  | linkedin
  | facebook
  | twitter
deriving DecidableEq, Repr

/-- Fixed lookup table networkTypeMapping of group-analytics.js
(lines 1031-1037). -/
def networkTypeMapping : String → Option String
  | "linkedin_company" => some "linkedin"
  | "fb_instagram_account" => some "instagram"
  | "fb_page" => some "facebook"
  | "youtube_channel" => some "youtube"
  | "twitter_profile" => some "twitter"
  | _ => none

/-- JavaScript String.prototype.toLowerCase, for the ASCII network type
strings that occur here: every character is lowercased. -/
def jsToLowerCase (s : String) : String :=
  String.mk (s.data.map Char.toLower)

/-- Simplified network type of a profile, as computed at line 1040:
`networkTypeMapping[profile.network_type] || profile.network_type.toLowerCase()`. -/
def canonicalNetworkType (nt : String) : String :=
  (networkTypeMapping nt).getD (jsToLowerCase nt)

/-- Lookup of a platform module by simplified network type, modelling the
property access `networkModules[networkType]`: only the five listed keys
exist on the object, every other key yields undefined. -/
def networkModules : String → Option Network
  | "instagram" => some .instagram
  | "youtube" => some .youtube
  | "linkedin" => some .linkedin
  | "facebook" => some .facebook
  | "twitter" => some .twitter
  | _ => none

/-- Network types processed as Instagram by platforms/instagram.js
(INSTAGRAM_NETWORK_TYPES, line 306). -/
def isInstagramType (networkType : String) : Bool :=
  ["instagram", "fb_instagram_account"].contains networkType

/-- Owning profile lookup for a grouped data point, as at lines 1022-1024:
`profiles.find((p) => p.customer_profile_id === parseInt(profileId))`.
When parseInt yields NaN the strict comparison is false for every
profile, so the search is empty. -/
def resolveProfile (profiles : List Profile) (profileId : JSVal) : Option Profile :=
  match jsParseInt profileId with
  | none => none
  | some n => profiles.find? (fun p => p.customer_profile_id == JSVal.num n)

/-! ## Grouping of data points by (profile, date) -/

/-- Entry stored in the dataByProfileAndDate object (lines 1001-1007). -/
structure GEntry where
  key : String
  profileId : JSVal
  date : String
  dataPoint : DataPoint
deriving DecidableEq, Repr

/-- Validation and key construction for one data point (lines 990-999):
a data point with a falsy customer_profile_id or reporting period is
skipped.  The dateNorm parameter abstracts the library round trip
`new Date(rp).toISOString().split("T")[0]` applied to the reporting
period. -/
def validEntry (dateNorm : String → String) (dp : DataPoint) : Option GEntry :=
  match dp.dimensions with
  | none => none
  | some dims =>
    match dims.customer_profile_id, resolveReportingPeriod dims with
    | some cid, some rp =>
      if jsTruthy cid && rp != "" then
        some ⟨jsvalToString cid ++ "_" ++ dateNorm rp, cid, dateNorm rp, dp⟩
      else none
    | _, _ => none

/-- One step of filling dataByProfileAndDate: the entry is inserted only
when its key is not already present (`if (!dataByProfileAndDate[key])`),
so the first data point wins on a duplicate key. -/
def groupStep (dateNorm : String → String) (acc : List GEntry) (dp : DataPoint) : List GEntry :=
  match validEntry dateNorm dp with
  | none => acc
  | some e => if acc.any (fun x => x.key == e.key) then acc else acc ++ [e]

/-- The dataByProfileAndDate map of lines 987-1008, represented as the
list of its entries in insertion order (JS object iteration order for
these non-index keys). -/
def dataByProfileAndDate (dateNorm : String → String) (dps : List DataPoint) : List GEntry :=
  dps.foldl (groupStep dateNorm) []

/-- Cell of a normalized row: a string or a number. -/
inductive Cell where
  | str (s : String)
  | num (q : ℚ)
deriving DecidableEq, Repr

/-- Routing of one grouped entry (lines 1019-1061): resolve the owning
profile, map its network type, look up the platform module, and run its
formatter.  The formatter family is a parameter so that the routing facts
hold for every normalizer. -/
def routeEntry (fmt : Network → DataPoint → Profile → Option (List Cell))
    (profiles : List Profile) (e : GEntry) : Option (String × List Cell) :=
  match resolveProfile profiles e.profileId with
  | none => none
  | some p =>
    let networkType := canonicalNetworkType p.network_type
    match networkModules networkType with
    | none => none
    | some pf => (fmt pf e.dataPoint p).map (fun row => (networkType, row))

/-- Rows pushed into rowsByNetwork across the whole pass, each tagged
with the (profile, date) key of the entry it came from. -/
def routeAll (fmt : Network → DataPoint → Profile → Option (List Cell))
    (profiles : List Profile) (dateNorm : String → String)
    (dps : List DataPoint) : List (String × String × List Cell) :=
  (dataByProfileAndDate dateNorm dps).filterMap
    (fun e => (routeEntry fmt profiles e).map (fun r => (e.key, r.1, r.2)))

/-! ## PeriodChunker: month windows -/

/-- Calendar date with a 1-based month. -/
structure YMD where
  y : Nat
  m : Nat
  d : Nat
deriving DecidableEq, Repr

/-- Gregorian leap year rule, as implemented by the JS Date object. -/
def isLeapYear (y : Nat) : Bool :=
  (y % 4 == 0 && y % 100 != 0) || y % 400 == 0

/-- Number of days in month m of year y (m between 1 and 12).  The source
obtains it as `new Date(y, m, 0).getDate()`, the day-zero normalization of
the JS Date constructor. -/
def daysInMonth (y m : Nat) : Nat :=
  if m = 2 then (if isLeapYear y then 29 else 28)
  else if m = 4 ∨ m = 6 ∨ m = 9 ∨ m = 11 then 30
  else 31

/-- Timestamp comparison of two calendar dates (JS compares Date objects
by their epoch milliseconds, which for valid dates is the lexicographic
order on year, month, day). -/
def dateLE (a b : YMD) : Bool :=
  decide (a.y < b.y ∨ (a.y = b.y ∧ (a.m < b.m ∨ (a.m = b.m ∧ a.d ≤ b.d))))

/-- Successor day of a calendar date. -/
def nextDate (a : YMD) : YMD :=
  if a.d < daysInMonth a.y a.m then ⟨a.y, a.m, a.d + 1⟩
  else if a.m < 12 then ⟨a.y, a.m + 1, 1⟩
  else ⟨a.y + 1, 1, 1⟩

/-- Two-digit padding used by formatDate (`String(x).padStart(2, "0")`). -/
def pad2 (n : Nat) : String :=
  if n < 10 then "0" ++ toString n else toString n

/-- The formatDate helper of getMonthDateRange (lines 326-331): the
YYYY-MM-DD rendering of a date. -/
def formatDate (y m d : Nat) : String :=
  toString y ++ "-" ++ pad2 m ++ "-" ++ pad2 d

/-- Month window returned by getMonthDateRange (lines 318-339): first day
through last day of the month, both as formatted strings. -/
structure MonthRange where
  startDate : String
  endDate : String
deriving DecidableEq, Repr

/-- The getMonthDateRange function for year y, month m: firstDay is
`new Date(y, m-1, 1)` and lastDay is `new Date(y, m, 0)`, the last day of
the same month. -/
def getMonthDateRange (y m : Nat) : MonthRange :=
  ⟨formatDate y m 1, formatDate y m (daysInMonth y m)⟩

/-- Structured form of a month window, used for the gaplessness facts. -/
def monthWindowD (y m : Nat) : YMD × YMD :=
  (⟨y, m, 1⟩, ⟨y, m, daysInMonth y m⟩)

/-- Year and month of a zero-based absolute month index (year times
twelve plus month minus one), used to state the closed form of the month
loop. -/
def idxYM (j : Nat) : Nat × Nat :=
  (j / 12, j % 12 + 1)

/-- Fuel-indexed unfolding of the month loop of main (lines 1411-1415):
while `currentMonth <= currentDate` push the month and advance
`setMonth(getMonth() + 1)`.  The fuel passed by monthsToProcess is exactly
the number of iterations the guard allows, so the two exit conditions
coincide. -/
def monthsGo (now : YMD) : Nat → Nat → Nat → List (Nat × Nat)
  | 0, _, _ => []
  | fuel + 1, y, m =>
    if dateLE ⟨y, m, 1⟩ now then
      (y, m) :: (if m = 12 then monthsGo now fuel (y + 1) 1 else monthsGo now fuel y (m + 1))
    else []

/-- Months processed by main for a start boundary (first of month) and a
current date: every month from the boundary up to and including the month
of now. -/
def monthsToProcess (start now : YMD) : List (Nat × Nat) :=
  monthsGo now (now.y * 12 + now.m + 1 - (start.y * 12 + start.m)) start.y start.m

/-- Month windows produced for the run, one getMonthDateRange per
processed month (processMonthAnalytics lines 1205-1217). -/
def monthWindows (start now : YMD) : List MonthRange :=
  (monthsToProcess start now).map (fun p => getMonthDateRange p.1 p.2)

/-! ## DedupGate and the per-unit control flow -/

/-- Destination spreadsheet, reduced to the first (date) column of each
created platform sheet, in sheet order.  A cell is none when the sheet
row has no value in column A. -/
structure Dest where
  sheets : List (List (Option String))
deriving DecidableEq, Repr

/-- Result of one getSheetValues call during the dedup check: either the
column values or a thrown error. -/
inductive SheetRead where
  | err
  | ok (col : List (Option String))
deriving DecidableEq, Repr

/-- Month key of a window: the first seven characters YYYY-MM of its
start date (line 873). -/
def monthYearKey (startDate : String) : String :=
  startDate.take 7

/-- Leading-segment test on character lists. -/
def listIsLeading : List Char → List Char → Bool
  | [], _ => true
  | _ :: _, [] => false
  | a :: as, b :: bs => a == b && listIsLeading as bs

/-- JavaScript String.prototype.startsWith. -/
def jsStartsWith (s key : String) : Bool :=
  listIsLeading key.data s.data

/-- Test of one cell against the month key, as in
`row[0] && row[0].startsWith(monthYearKey)`. -/
def cellMatches (key : String) : Option String → Bool
  | none => false
  | some s => jsStartsWith s key

/-- Existing-data scan of lines 869-903: sheets are read in order; a
column with more than one row is scanned for a date of the requested
month, a hit breaks out with true; a thrown read aborts the scan and the
surrounding catch leaves the flag false (the gate fails open). -/
def checkExistingData (key : String) : List SheetRead → Bool
  | [] => false
  | .err :: _ => false
  | .ok col :: rest =>
    if col.length > 1 && col.any (cellMatches key) then true
    else checkExistingData key rest

/-- Appending per-sheet column values: each created sheet receives the
first-column values of the rows routed to its platform; sheets with no
routed rows are untouched. -/
def appendCols : List (List (Option String)) → List (List String) → List (List (Option String))
  | cols, [] => cols
  | [], _ => []
  | col :: cols, rows :: rest => (col ++ rows.map Option.some) :: appendCols cols rest

/-- Appending routed rows to the destination. -/
def appendRows (d : Dest) (rowsDates : List (List String)) : Dest :=
  ⟨appendCols d.sheets rowsDates⟩

/-- Outcome of one (group, month, folder) unit: the destination after the
unit, its status string, and whether the analytics fetch was issued. -/
structure UnitOutcome where
  dest : Dest
  status : String
  fetched : Bool
deriving DecidableEq, Repr

/-- Per-folder body of processGroupAnalytics (lines 861-1155) for one
destination: the dedup gate runs first over the read results; a hit skips
the unit before any fetch with status "Already updated for this month";
an empty fetch result gives "No data"; otherwise the routed rows are
appended and the status is "Completed".  The fetch thunk models the
apiUtils.getAnalyticsData call, route the grouping and normalization down
to the per-sheet first-column date strings. -/
def unitStep (d : Dest) (reads : List SheetRead) (startDate : String)
    (fetch : Unit → List DataPoint)
    (route : List DataPoint → List (List String)) : UnitOutcome :=
  if checkExistingData (monthYearKey startDate) reads then
    ⟨d, "Already updated for this month", false⟩
  else
    let dataPoints := fetch ()
    if dataPoints.isEmpty then ⟨d, "No data", true⟩
    else ⟨appendRows d (route dataPoints), "Completed", true⟩

/-- Unit body wrapped in the catch of processGroupAnalytics (lines
1176-1195): an exception anywhere in the unit is converted into an
"Error after <duration> minutes: <message>" status result instead of
failing the run.  The fail parameter carries the rendered duration and
message of the would-be exception. -/
def runUnitCaught (fail : Option (String × String)) (d : Dest) (reads : List SheetRead)
    (startDate : String) (fetch : Unit → List DataPoint)
    (route : List DataPoint → List (List String)) : UnitOutcome :=
  match fail with
  | some (dur, msg) => ⟨d, "Error after " ++ dur ++ " minutes: " ++ msg, false⟩
  | none => unitStep d reads startDate fetch route

/-- Status strings a unit of work can yield. -/
def isUnitStatus (s : String) : Prop :=
  s = "Completed" ∨ s = "No data" ∨ s = "Already updated for this month" ∨
    ∃ dur msg, s = "Error after " ++ dur ++ " minutes: " ++ msg

/-- Result object pushed for one unit (lines 910-920, 973-983, 1144-1154,
1187-1194): the window is recorded in dateRange; no startDate field is
ever set on these objects. -/
structure GroupResult where
  groupName : String
  dateRange : String
  status : String
  startDate : Option String
deriving DecidableEq, Repr

/-- Construction of a unit result as processGroupAnalytics performs it:
dateRange is populated, startDate is absent. -/
def mkGroupResult (name range status : String) : GroupResult :=
  ⟨name, range, status, none⟩

/-- Summary grouping of main (lines 1441-1449): every result is keyed by
`result.startDate.substring(0, 7)`.  Reading substring of an undefined
startDate throws a TypeError, modelled as Except.error; the bucket
bookkeeping is reduced to tagging each result with its month key. -/
def summaryByMonth (rs : List GroupResult) : Except String (List (String × GroupResult)) :=
  rs.foldlM
    (fun acc r =>
      match r.startDate with
      | none => Except.error "TypeError: Cannot read properties of undefined (reading substring)"
      | some s => Except.ok (acc ++ [(s.take 7, r)]))
    []

/-! ## AnalyticsFetcher retry -/

/-- Modelled from the spec: the retry count of the AnalyticsFetcher in
utils/api.js, which is not in the source tree (default 3). -/
def sproutMaxAttempts : Nat := 3

/-- Modelled from the spec: the fixed inter-attempt delay of the
AnalyticsFetcher in utils/api.js, roughly ten seconds. -/
def sproutRetryDelayMs : Nat := 10000

/-- Modelled from the spec: the bounded retry loop of the
AnalyticsFetcher in utils/api.js (not in the source tree).  Attempt
numbers are passed to the call function; a network error (none) or an
empty successful response triggers a retry; exhaustion returns the empty
result together with the number of attempts made, never an exception. -/
def retryGo (call : Nat → Option (List DataPoint)) (used : Nat) : Nat → List DataPoint × Nat
  | 0 => ([], used)
  | rem + 1 =>
    match call used with
    | some ds => if ds.isEmpty then retryGo call (used + 1) rem else (ds, used + 1)
    | none => retryGo call (used + 1) rem

/-- Modelled from the spec: fetch with bounded retries; maxAttempts
bounds the attempt count and the second component reports how many
attempts were made. -/
def fetchWithRetry (call : Nat → Option (List DataPoint)) (maxAttempts : Nat) :
    List DataPoint × Nat :=
  retryGo call 0 maxAttempts

/-! ## MetricNormalizer: platform derived metrics -/

/-- Rounding to two decimal places, modelling
`parseFloat(x.toFixed(2))` on exact rationals (up to the floating point
tie-breaking of toFixed, which no claim depends on). -/
def toFixed2 (q : ℚ) : ℚ :=
  ((round (q * 100) : ℤ) : ℚ) / 100

/-- Rounding to four decimal places, modelling
`parseFloat(x.toFixed(4))` on exact rationals (up to the floating point
tie-breaking of toFixed, which no claim depends on). -/
def toFixed4 (q : ℚ) : ℚ :=
  ((round (q * 10000) : ℤ) : ℚ) / 10000

/-- Modelled from the spec: the safeNumber helper exported by utils/api.js
(not in the source tree); a metric absent from the payload is treated as
zero, not as missing. -/
def safeNumber (v : Option ℚ) : ℚ :=
  v.getD 0

/-- Rendering of `dimensions.customer_profile_id || ""` into a row cell:
a falsy id (absent, 0, empty string) becomes the empty string. -/
def profileIdCell : Option JSVal → Cell
  | some (.num n) => if n = 0 then .str "" else .num (n : ℚ)
  | some (.str s) => .str s
  | none => .str ""

namespace Twitter

/-- Total engagement actions of platforms/twitter.js (lines 85-91): the
fixed counter set likes, comments_count, shares_count, post_link_clicks,
post_content_clicks_other and engagements_other, each defaulting to 0. -/
def engagements (m : Metrics) : ℚ :=
  getMetric m "likes" + getMetric m "comments_count" + getMetric m "shares_count" +
    getMetric m "post_link_clicks" + getMetric m "post_content_clicks_other" +
    getMetric m "engagements_other"

/-- Engagement rate per follower (lines 94-97). -/
def engagementRatePerFollower (m : Metrics) : ℚ :=
  if getMetric m "lifetime_snapshot.followers_count" > 0 then
    toFixed2 (engagements m / getMetric m "lifetime_snapshot.followers_count" * 100)
  else 0

/-- Engagement rate per impression (lines 100-103). -/
def engagementRatePerImpression (m : Metrics) : ℚ :=
  if getMetric m "impressions" > 0 then
    toFixed2 (engagements m / getMetric m "impressions" * 100)
  else 0

/-- Click-through rate (lines 106-109). -/
def clickThroughRate (m : Metrics) : ℚ :=
  if getMetric m "impressions" > 0 then
    toFixed2 (getMetric m "post_link_clicks" / getMetric m "impressions" * 100)
  else 0

/-- The formatAnalyticsData function of platforms/twitter.js (lines
52-149): a data point without a metrics block or without a reporting
period yields no row; otherwise the 32-cell row is produced in header
order. -/
def formatAnalyticsData (dp : DataPoint) (profileData : Option Profile) : Option (List Cell) :=
  match dp.metrics with
  | none => none
  | some metrics =>
    match dp.dimensions with
    | none => none
    | some dims =>
      match resolveReportingPeriod dims with
      | none => none
      | some rp =>
        if rp = "" then none
        else
          let date := jsIsoDate rp
          some
            [ .str date,
              .str ((profileData.map Profile.network_type).getD ""),
              .str ((profileData.map Profile.name).getD ""),
              .str ((profileData.map Profile.network_id).getD ""),
              profileIdCell dims.customer_profile_id,
              .num (safeNumber (metrics.lookup "lifetime_snapshot.followers_count")),
              .num (safeNumber (metrics.lookup "net_follower_growth")),
              .num (safeNumber (metrics.lookup "impressions")),
              .num (safeNumber (metrics.lookup "post_media_views")),
              .num (safeNumber (metrics.lookup "video_views")),
              .num (safeNumber (metrics.lookup "reactions")),
              .num (safeNumber (metrics.lookup "likes")),
              .num (safeNumber (metrics.lookup "comments_count")),
              .num (safeNumber (metrics.lookup "shares_count")),
              .num (safeNumber (metrics.lookup "post_content_clicks")),
              .num (safeNumber (metrics.lookup "post_link_clicks")),
              .num (safeNumber (metrics.lookup "post_content_clicks_other")),
              .num (safeNumber (metrics.lookup "post_media_clicks")),
              .num (safeNumber (metrics.lookup "post_hashtag_clicks")),
              .num (safeNumber (metrics.lookup "post_detail_expand_clicks")),
              .num (safeNumber (metrics.lookup "post_profile_clicks")),
              .num (safeNumber (metrics.lookup "engagements_other")),
              .num (safeNumber (metrics.lookup "post_app_engagements")),
              .num (safeNumber (metrics.lookup "post_app_installs")),
              .num (safeNumber (metrics.lookup "post_app_opens")),
              .num (safeNumber (metrics.lookup "posts_sent_count")),
              .num (safeNumber (metrics.lookup "posts_sent_by_post_type")),
              .num (safeNumber (metrics.lookup "posts_sent_by_content_type")),
              .num (engagements metrics),
              .num (engagementRatePerImpression metrics),
              .num (engagementRatePerFollower metrics),
              .num (clickThroughRate metrics) ]

end Twitter

namespace Facebook

/-- Total engagement actions of platforms/facebook.js (lines 96-101):
reactions, comments_count, shares_count, post_link_clicks and
post_content_clicks_other, each defaulting to 0. -/
def engagements (m : Metrics) : ℚ :=
  getMetric m "reactions" + getMetric m "comments_count" + getMetric m "shares_count" +
    getMetric m "post_link_clicks" + getMetric m "post_content_clicks_other"

/-- Engagement rate per follower (lines 104-107). -/
def engagementRatePerFollower (m : Metrics) : ℚ :=
  if getMetric m "lifetime_snapshot.followers_count" > 0 then
    toFixed2 (engagements m / getMetric m "lifetime_snapshot.followers_count" * 100)
  else 0

/-- Engagement rate per impression (lines 110-113). -/
def engagementRatePerImpression (m : Metrics) : ℚ :=
  if getMetric m "impressions" > 0 then
    toFixed2 (engagements m / getMetric m "impressions" * 100)
  else 0

/-- Click-through rate (lines 116-119). -/
def clickThroughRate (m : Metrics) : ℚ :=
  if getMetric m "impressions" > 0 then
    toFixed2 (getMetric m "post_link_clicks" / getMetric m "impressions" * 100)
  else 0

end Facebook

namespace LinkedIn

/-- Total engagement actions of platforms/linkedin.js (lines 81-86). -/
def engagements (m : Metrics) : ℚ :=
  getMetric m "reactions" + getMetric m "comments_count" + getMetric m "shares_count" +
    getMetric m "post_link_clicks" + getMetric m "post_content_clicks"

/-- Engagement rate per impression (lines 95-98). -/
def engagementRatePerImpression (m : Metrics) : ℚ :=
  if getMetric m "impressions" > 0 then
    toFixed2 (engagements m / getMetric m "impressions" * 100)
  else 0

/-- Engagement rate per follower (lines 101-104). -/
def engagementRatePerFollower (m : Metrics) : ℚ :=
  if getMetric m "lifetime_snapshot.followers_count" > 0 then
    toFixed2 (engagements m / getMetric m "lifetime_snapshot.followers_count" * 100)
  else 0

/-- Click-through rate (lines 107-117): link clicks plus content clicks
over impressions. -/
def clickThroughRate (m : Metrics) : ℚ :=
  if getMetric m "impressions" > 0 then
    toFixed2 ((getMetric m "post_link_clicks" + getMetric m "post_content_clicks") /
      getMetric m "impressions" * 100)
  else 0

end LinkedIn

namespace Instagram

/-- Saves metric selection of platforms/instagram.js (lines 384-385): the
post_saves key when present, the saves key otherwise. -/
def savesKey (m : Metrics) : String :=
  if (m.lookup "post_saves").isSome then "post_saves" else "saves"

/-- Likes metric selection (lines 393-394). -/
def likesKey (m : Metrics) : String :=
  if (m.lookup "post_likes").isSome then "post_likes" else "likes"

/-- Total engagement actions (lines 402-407). -/
def engagements (m : Metrics) : ℚ :=
  getMetric m (likesKey m) + getMetric m "comments_count" + getMetric m "shares_count" +
    getMetric m (savesKey m) + getMetric m "story_replies"

/-- Engagement rate per impression (lines 415-418). -/
def engagementRatePerImpression (m : Metrics) : ℚ :=
  if getMetric m "impressions" > 0 then
    toFixed2 (engagements m / getMetric m "impressions" * 100)
  else 0

/-- Engagement rate per follower (lines 420-423). -/
def engagementRatePerFollower (m : Metrics) : ℚ :=
  if getMetric m "lifetime_snapshot.followers_count" > 0 then
    toFixed2 (engagements m / getMetric m "lifetime_snapshot.followers_count" * 100)
  else 0

end Instagram

namespace Youtube

/-- Net follower growth difference of the YouTube module (part_004 lines
57-59): followers gained minus followers lost, each defaulting to 0. -/
def netFollowerGrowths (m : Metrics) : ℚ :=
  getMetric m "followers_gained" - getMetric m "followers_lost"

/-- Total video engagement actions (lines 61-68): the fixed counter set
comments_count, likes, dislikes, shares_count, followers_gained,
annotation_clicks and card_clicks, each defaulting to 0; it is placed in
the produced row at index 11. -/
def videoEngagements (m : Metrics) : ℚ :=
  getMetric m "comments_count" + getMetric m "likes" + getMetric m "dislikes" +
    getMetric m "shares_count" + getMetric m "followers_gained" +
    getMetric m "annotation_clicks" + getMetric m "card_clicks"

/-- Video view count (line 70), placed in the row at index 12. -/
def videoViews (m : Metrics) : ℚ :=
  getMetric m "video_views"

/-- Guarded per-view engagement ratio (lines 71-74): engagements over
views at four decimal places when views are positive, 0 otherwise.  The
value is computed by the formatter though not placed in the row. -/
def engagementsPerView (m : Metrics) : ℚ :=
  if videoViews m > 0 then
    toFixed4 (videoEngagements m / videoViews m)
  else 0

end Youtube

/-! ## Helper lemmas -/

theorem retryGo_all_fail (call : Nat → Option (List DataPoint)) (h : ∀ i, call i = none) :
    ∀ rem used, retryGo call used rem = ([], used + rem) := by
  intro rem
  induction rem with
  | zero => intro used; simp [retryGo]
  | succ n ih =>
    intro used
    simp only [retryGo, h used]
    rw [ih (used + 1)]
    congr 1
    omega

theorem checkExistingData_all_ok (key : String) (cols : List (List (Option String))) :
    checkExistingData key (cols.map SheetRead.ok) =
      cols.any (fun col => col.length > 1 && col.any (cellMatches key)) := by
  induction cols with
  | nil => rfl
  | cons col rest ih =>
    by_cases h : (decide (col.length > 1) && col.any (cellMatches key)) = true
    · simp [checkExistingData, h]
    · simp only [List.map_cons, checkExistingData, List.any_cons]
      rw [if_neg (by simpa using h), ih]
      have hf : (decide (col.length > 1) && col.any (cellMatches key)) = false := by
        simpa using h
      rw [hf, Bool.false_or]

theorem appendCols_length (cols : List (List (Option String))) (rows : List (List String)) :
    (appendCols cols rows).length = cols.length := by
  induction cols generalizing rows with
  | nil => cases rows <;> rfl
  | cons col rest ih =>
    cases rows with
    | nil => rfl
    | cons r rs => simp [appendCols, ih]

theorem appendCols_getD (cols : List (List (Option String))) (rows : List (List String))
    (i : Nat) (h1 : i < cols.length) (h2 : i < rows.length) :
    (appendCols cols rows).getD i [] = cols.getD i [] ++ (rows.getD i []).map Option.some := by
  induction cols generalizing rows i with
  | nil => simp at h1
  | cons col rest ih =>
    cases rows with
    | nil => simp at h2
    | cons r rs =>
      cases i with
      | zero => rfl
      | succ n =>
        simp only [appendCols, List.getD_cons_succ]
        exact ih rs n (by simpa using h1) (by simpa using h2)

/-! ## Claim C3: network type mapping -/

/-- C3 counterexample: a network type outside the fixed lookup table does
not pass through unchanged; the fallback is toLowerCase, so the
unrecognized type "Threads" is dispatched as "threads". -/
theorem canonicalNetworkType_not_passthrough :
    networkTypeMapping "Threads" = none ∧ canonicalNetworkType "Threads" ≠ "Threads" := by
  refine ⟨rfl, ?_⟩
  decide

/-- C3 (amended): the canonical platform key is obtained from the fixed
lookup table linkedin_company to linkedin, fb_instagram_account to
instagram, fb_page to facebook, youtube_channel to youtube and
twitter_profile to twitter; every network type not in the table passes
through lowercased (toLowerCase), not unchanged; and a profile with
network type fb_instagram_account is dispatched to the Instagram module,
not Facebook, in agreement with INSTAGRAM_NETWORK_TYPES. -/
theorem canonicalNetworkType_table_and_lowercase :
    canonicalNetworkType "linkedin_company" = "linkedin" ∧
    canonicalNetworkType "fb_instagram_account" = "instagram" ∧
    canonicalNetworkType "fb_page" = "facebook" ∧
    canonicalNetworkType "youtube_channel" = "youtube" ∧
    canonicalNetworkType "twitter_profile" = "twitter" ∧
    (∀ nt, networkTypeMapping nt = none → canonicalNetworkType nt = jsToLowerCase nt) ∧
    networkModules (canonicalNetworkType "fb_instagram_account") = some Network.instagram ∧
    networkModules (canonicalNetworkType "fb_instagram_account") ≠ some Network.facebook ∧
    isInstagramType "fb_instagram_account" = true := by
  refine ⟨rfl, rfl, rfl, rfl, rfl, ?_, rfl, by decide, rfl⟩
  intro nt h
  simp [canonicalNetworkType, h]

/-- Witness for the amended C3 theorem at the concrete unmapped network
type "TikTok". -/
theorem canonicalNetworkType_table_and_lowercase_witness :
    canonicalNetworkType "TikTok" = jsToLowerCase "TikTok" :=
  canonicalNetworkType_table_and_lowercase.2.2.2.2.2.1 "TikTok" rfl

/-! ## Claim C4: profile resolution by id -/

/-- C4 counterexample: a Profile storing customer_profile_id as the
string "123" is resolved neither by the string key "123" nor by the
number key 123, because the find uses strict equality against
parseInt(profileId), which is a number; the claim that resolution works
regardless of whether the profile stores a string or a number is false. -/
theorem resolveProfile_string_stored_counterexample :
    resolveProfile [⟨"Acme", "twitter_profile", "n1", JSVal.str "123"⟩] (JSVal.str "123") = none ∧
    resolveProfile [⟨"Acme", "twitter_profile", "n1", JSVal.str "123"⟩] (JSVal.num 123) = none := by
  constructor <;> decide

/-- C4 (amended): resolution is numeric-string coercion tolerant on the
data point side only: a key "123" and a key 123 resolve to the same
result, but a match requires the profile to store its
customer_profile_id as a number; a profile that stores it as a string is
never resolved. -/
theorem resolveProfile_numeric_side_tolerant (ps : List Profile) :
    (∀ s n, jsParseInt (JSVal.str s) = some n →
      resolveProfile ps (JSVal.str s) = resolveProfile ps (JSVal.num n)) ∧
    (∀ pid, (∀ p ∈ ps, ∃ s, p.customer_profile_id = JSVal.str s) →
      resolveProfile ps pid = none) := by
  constructor
  · intro s n h
    have h2 : parseIntStr s = some n := h
    simp only [resolveProfile, jsParseInt, h2]
  · intro pid hstr
    cases hn : jsParseInt pid with
    | none => simp [resolveProfile, hn]
    | some n =>
      simp only [resolveProfile, hn]
      rw [List.find?_eq_none]
      intro p hp
      obtain ⟨s, hs⟩ := hstr p hp
      simp [hs]

/-- Witness for the amended C4 theorem: with a profile storing the number
123, the keys "123" and 123 resolve identically, and a list of profiles
storing only string ids resolves nothing. -/
theorem resolveProfile_numeric_side_tolerant_witness :
    resolveProfile [⟨"A", "twitter_profile", "n1", JSVal.num 123⟩] (JSVal.str "123") =
      resolveProfile [⟨"A", "twitter_profile", "n1", JSVal.num 123⟩] (JSVal.num 123) ∧
    resolveProfile [⟨"B", "fb_page", "n2", JSVal.str "9"⟩] (JSVal.num 9) = none := by
  constructor
  · exact (resolveProfile_numeric_side_tolerant _).1 "123" 123 (by decide)
  · exact (resolveProfile_numeric_side_tolerant _).2 (JSVal.num 9)
      (by intro p hp; simp at hp; subst hp; exact ⟨"9", rfl⟩)

/-! ## Claim C5: zero-safety of derived metrics -/

/-- C5: for every platform normalizer, an empty metrics mapping yields 0
for every derived metric: the engagement totals, engagement rates and
click-through rates of Twitter, Facebook, LinkedIn and Instagram, and the
video engagement total, net follower growth and per-view ratio of YouTube
(in the exact rational model no NaN or error can arise); the produced
Twitter row carries 0 in all four derived cells; on every platform with
impression-based rates a zero (or absent) impressions metric gives a zero
engagement-rate-per-impression and click-through rate, and zero (or
absent) video views give a zero YouTube per-view ratio, the guards
short-circuiting before any division. -/
theorem normalizers_zero_safe :
    (Twitter.engagements [] = 0 ∧ Twitter.engagementRatePerImpression [] = 0 ∧
      Twitter.engagementRatePerFollower [] = 0 ∧ Twitter.clickThroughRate [] = 0 ∧
      Facebook.engagements [] = 0 ∧ Facebook.engagementRatePerImpression [] = 0 ∧
      Facebook.engagementRatePerFollower [] = 0 ∧ Facebook.clickThroughRate [] = 0 ∧
      LinkedIn.engagements [] = 0 ∧ LinkedIn.engagementRatePerImpression [] = 0 ∧
      LinkedIn.engagementRatePerFollower [] = 0 ∧ LinkedIn.clickThroughRate [] = 0 ∧
      Instagram.engagements [] = 0 ∧ Instagram.engagementRatePerImpression [] = 0 ∧
      Instagram.engagementRatePerFollower [] = 0 ∧
      Youtube.videoEngagements [] = 0 ∧ Youtube.netFollowerGrowths [] = 0 ∧
      Youtube.engagementsPerView [] = 0) ∧
    ((Twitter.formatAnalyticsData
        ⟨some ⟨some (JSVal.num 42), some "2024-01-15T00:00:00", none⟩, some []⟩
        (some ⟨"P", "twitter_profile", "n", JSVal.num 42⟩)).map (fun r => r.drop 28) =
      some [Cell.num 0, Cell.num 0, Cell.num 0, Cell.num 0]) ∧
    (∀ m : Metrics, getMetric m "impressions" = 0 →
      Twitter.engagementRatePerImpression m = 0 ∧ Twitter.clickThroughRate m = 0 ∧
      Facebook.engagementRatePerImpression m = 0 ∧ Facebook.clickThroughRate m = 0 ∧
      LinkedIn.engagementRatePerImpression m = 0 ∧ LinkedIn.clickThroughRate m = 0 ∧
      Instagram.engagementRatePerImpression m = 0) ∧
    (∀ m : Metrics, getMetric m "video_views" = 0 →
      Youtube.engagementsPerView m = 0) := by
  refine ⟨?_, ?_, ?_, ?_⟩
  · refine ⟨?_, ?_, ?_, ?_, ?_, ?_, ?_, ?_, ?_, ?_, ?_, ?_, ?_, ?_, ?_, ?_, ?_, ?_⟩ <;>
      simp [Twitter.engagements, Twitter.engagementRatePerImpression,
        Twitter.engagementRatePerFollower, Twitter.clickThroughRate,
        Facebook.engagements, Facebook.engagementRatePerImpression,
        Facebook.engagementRatePerFollower, Facebook.clickThroughRate,
        LinkedIn.engagements, LinkedIn.engagementRatePerImpression,
        LinkedIn.engagementRatePerFollower, LinkedIn.clickThroughRate,
        Instagram.engagements, Instagram.engagementRatePerImpression,
        Instagram.engagementRatePerFollower, Instagram.likesKey, Instagram.savesKey,
        Youtube.videoEngagements, Youtube.netFollowerGrowths,
        Youtube.engagementsPerView, Youtube.videoViews, getMetric]
  · simp [Twitter.formatAnalyticsData, resolveReportingPeriod, jsOrStr,
      Twitter.engagements, Twitter.engagementRatePerImpression,
      Twitter.engagementRatePerFollower, Twitter.clickThroughRate, getMetric,
      List.lookup, beq_iff_eq]
  · intro m h
    refine ⟨?_, ?_, ?_, ?_, ?_, ?_, ?_⟩ <;>
      simp [Twitter.engagementRatePerImpression, Twitter.clickThroughRate,
        Facebook.engagementRatePerImpression, Facebook.clickThroughRate,
        LinkedIn.engagementRatePerImpression, LinkedIn.clickThroughRate,
        Instagram.engagementRatePerImpression, h]
  · intro m h
    simp [Youtube.engagementsPerView, Youtube.videoViews, h]

/-- Witness for C5 at the concrete payloads mapping impressions, and
video views, to 0. -/
theorem normalizers_zero_safe_witness :
    (Twitter.engagementRatePerImpression [("impressions", 0)] = 0 ∧
      Twitter.clickThroughRate [("impressions", 0)] = 0 ∧
      Facebook.engagementRatePerImpression [("impressions", 0)] = 0 ∧
      Facebook.clickThroughRate [("impressions", 0)] = 0 ∧
      LinkedIn.engagementRatePerImpression [("impressions", 0)] = 0 ∧
      LinkedIn.clickThroughRate [("impressions", 0)] = 0 ∧
      Instagram.engagementRatePerImpression [("impressions", 0)] = 0) ∧
    Youtube.engagementsPerView [("video_views", 0)] = 0 :=
  ⟨normalizers_zero_safe.2.2.1 [("impressions", 0)] rfl,
    normalizers_zero_safe.2.2.2 [("video_views", 0)] rfl⟩

/-! ## Claim C6: Twitter engagement total -/

/-- C6: the Twitter engagement total is the sum of the fixed counter set
likes, comments_count, shares_count, post_link_clicks,
post_content_clicks_other and engagements_other, each defaulting to 0
when absent; on the example payload with engagements_other absent the
total is 16, and the produced row carries 16 in the Total Engagement
Actions cell (index 28). -/
theorem twitter_engagement_total :
    Twitter.engagements
      [("likes", 10), ("comments_count", 2), ("shares_count", 1),
        ("post_link_clicks", 3), ("post_content_clicks_other", 0)] = 16 ∧
    (∀ m : Metrics, Twitter.engagements m =
      getMetric m "likes" + getMetric m "comments_count" + getMetric m "shares_count" +
        getMetric m "post_link_clicks" + getMetric m "post_content_clicks_other" +
        getMetric m "engagements_other") ∧
    ((Twitter.formatAnalyticsData
        ⟨some ⟨some (JSVal.num 42), some "2024-01-15T00:00:00", none⟩,
          some [("likes", 10), ("comments_count", 2), ("shares_count", 1),
            ("post_link_clicks", 3), ("post_content_clicks_other", 0)]⟩
        (some ⟨"P", "twitter_profile", "n", JSVal.num 42⟩)).bind
      (fun r => r.get? 28) = some (Cell.num 16)) := by
  refine ⟨?_, fun m => rfl, ?_⟩
  · simp [Twitter.engagements, getMetric, List.lookup, beq_iff_eq]
    norm_num
  · simp [Twitter.formatAnalyticsData, resolveReportingPeriod, jsOrStr,
      Twitter.engagements, getMetric, List.lookup, beq_iff_eq]
    norm_num

/-! ## Claim C8: retry exhaustion and the No data status -/

/-- C8: when every attempt of the analytics fetch fails, the fetcher
returns the empty result after exactly the configured number of attempts
(default 3, fixed ten second inter-attempt delay) instead of raising, and
a unit whose fetch comes back empty records the status "No data" with the
destination untouched, so the run continues. -/
theorem fetch_retry_exhaustion_no_data (call : Nat → Option (List DataPoint))
    (h : ∀ i, call i = none) :
    (∀ maxAttempts, fetchWithRetry call maxAttempts = ([], maxAttempts)) ∧
    fetchWithRetry call sproutMaxAttempts = ([], 3) ∧
    sproutRetryDelayMs = 10000 ∧
    (∀ (d : Dest) (reads : List SheetRead) (startDate : String)
        (route : List DataPoint → List (List String)),
      checkExistingData (monthYearKey startDate) reads = false →
      unitStep d reads startDate (fun _ => []) route = ⟨d, "No data", true⟩) := by
  have hall : ∀ maxAttempts, fetchWithRetry call maxAttempts = ([], maxAttempts) := by
    intro maxAttempts
    have := retryGo_all_fail call h maxAttempts 0
    simpa [fetchWithRetry] using this
  refine ⟨hall, by simpa [sproutMaxAttempts] using hall 3, rfl, ?_⟩
  intro d reads startDate route hgate
  simp [unitStep, hgate]

/-- Witness for C8: the always-failing call exhausts exactly three
attempts with an empty result, and a concrete unit with an empty fetch
records "No data". -/
theorem fetch_retry_exhaustion_no_data_witness :
    fetchWithRetry (fun _ => none) 3 = ([], 3) ∧
    unitStep ⟨[[some "Date"]]⟩ [SheetRead.ok [some "Date"]] "2024-02-01"
        (fun _ => []) (fun _ => []) =
      ⟨⟨[[some "Date"]]⟩, "No data", true⟩ := by
  constructor
  · exact (fetch_retry_exhaustion_no_data (fun _ => none) (fun i => rfl)).1 3
  · exact (fetch_retry_exhaustion_no_data (fun _ => none) (fun i => rfl)).2.2.2
      ⟨[[some "Date"]]⟩ [SheetRead.ok [some "Date"]] "2024-02-01" (fun _ => []) (by decide)

/-! ## Claim C9: unit statuses and the final summary -/

/-- C9 (code bug): every unit of work yields one of the four status
shapes "Completed", "No data", "Already updated for this month" or
"Error after <duration> minutes: <message>", and a unit-level error is
converted to a status instead of failing the process; but the final
summary grouping of main reads result.startDate.substring(0, 7) while
the pushed result objects only carry dateRange and never a startDate
field, so as soon as at least one result exists the grouping throws a
TypeError and the month-grouped summary is never printed. -/
theorem unit_status_shapes_and_summary_typeerror :
    (∀ (fail : Option (String × String)) (d : Dest) (reads : List SheetRead)
        (startDate : String) (fetch : Unit → List DataPoint)
        (route : List DataPoint → List (List String)),
      isUnitStatus (runUnitCaught fail d reads startDate fetch route).status) ∧
    (∀ name range status rest,
      summaryByMonth (mkGroupResult name range status :: rest) =
        Except.error "TypeError: Cannot read properties of undefined (reading substring)") := by
  constructor
  · intro fail d reads startDate fetch route
    match fail with
    | some (dur, msg) =>
      exact Or.inr (Or.inr (Or.inr ⟨dur, msg, rfl⟩))
    | none =>
      simp only [runUnitCaught, unitStep]
      split
      · exact Or.inr (Or.inr (Or.inl rfl))
      · split
        · exact Or.inr (Or.inl rfl)
        · exact Or.inl rfl
  · intro name range status rest
    rfl

/-! ## Claim C10: the dedup gate fails open on read errors -/

/-- C10: when reading a sheet column during the dedup check throws before
any month match was found, the gate comes back false (the catch only
logs), the unit proceeds to fetch, and with a nonempty fetch result the
rows of the month are appended to the destination regardless of what the
destination already contains, so a read failure can duplicate a month. -/
theorem dedup_gate_fails_open
    (d : Dest) (pre : List (List (Option String))) (rest : List SheetRead)
    (startDate : String) (fetch : Unit → List DataPoint)
    (route : List DataPoint → List (List String))
    (hpre : ∀ col ∈ pre,
      (decide (col.length > 1) && col.any (cellMatches (monthYearKey startDate))) = false)
    (hne : (fetch ()).isEmpty = false) :
    checkExistingData (monthYearKey startDate)
        (pre.map SheetRead.ok ++ SheetRead.err :: rest) = false ∧
    unitStep d (pre.map SheetRead.ok ++ SheetRead.err :: rest) startDate fetch route =
      ⟨appendRows d (route (fetch ())), "Completed", true⟩ := by
  have hgate : checkExistingData (monthYearKey startDate)
      (pre.map SheetRead.ok ++ SheetRead.err :: rest) = false := by
    induction pre with
    | nil => rfl
    | cons col cols ih =>
      simp only [List.map_cons, List.cons_append, checkExistingData]
      rw [if_neg]
      · exact ih (fun c hc => hpre c (List.mem_cons_of_mem _ hc))
      · simp [hpre col (List.mem_cons_self _ _)]
  refine ⟨hgate, ?_⟩
  simp [unitStep, hgate, hne]

/-- Witness for C10: the destination already holds a January 2024 row,
the single sheet read throws, and the unit appends another January 2024
row anyway. -/
theorem dedup_gate_fails_open_witness :
    checkExistingData (monthYearKey "2024-01-15") [SheetRead.err] = false ∧
    unitStep ⟨[[some "Date", some "2024-01-05"]]⟩ [SheetRead.err] "2024-01-15"
        (fun _ => [⟨none, none⟩]) (fun _ => [["2024-01-20"]]) =
      ⟨⟨[[some "Date", some "2024-01-05", some "2024-01-20"]]⟩, "Completed", true⟩ := by
  have h := dedup_gate_fails_open ⟨[[some "Date", some "2024-01-05"]]⟩ [] [] "2024-01-15"
    (fun _ => [⟨none, none⟩]) (fun _ => [["2024-01-20"]])
    (by intro col hc; simp at hc) rfl
  refine ⟨h.1, h.2.trans ?_⟩
  rfl

/-! ## Claim C1: dedup gate skip and idempotence -/

theorem getD_mem_of_lt {α : Type} (l : List α) (i : Nat) (dflt : α) (h : i < l.length) :
    l.getD i dflt ∈ l := by
  induction l generalizing i with
  | nil => simp at h
  | cons a as ih =>
    cases i with
    | zero => simp
    | succ n =>
      simp only [List.getD_cons_succ]
      exact List.mem_cons_of_mem _ (ih n (by simpa using h))

/-- C1: when any created platform sheet of the destination already holds,
below its header row, a date whose seven character YYYY-MM key matches
the start date of the window, the unit is skipped before any analytics
fetch occurs with status "Already updated for this month" and the
destination untouched; and a second run on the destination produced by a
first run that appended the month is always such a skip, so the second
run appends no rows and the row count for the month is unchanged. -/
theorem dedupGate_skip_and_idempotent :
    (∀ (d : Dest) (startDate : String) (fetch : Unit → List DataPoint)
        (route : List DataPoint → List (List String)),
      (∃ col ∈ d.sheets, col ≠ [] ∧
        ∃ c ∈ col.tail, cellMatches (monthYearKey startDate) c = true) →
      checkExistingData (monthYearKey startDate) (d.sheets.map SheetRead.ok) = true ∧
      unitStep d (d.sheets.map SheetRead.ok) startDate fetch route =
        ⟨d, "Already updated for this month", false⟩) ∧
    (∀ (d : Dest) (startDate : String) (fetch1 fetch2 : Unit → List DataPoint)
        (route1 route2 : List DataPoint → List (List String)) (i : Nat),
      (∀ col ∈ d.sheets, col ≠ []) →
      (fetch1 ()).isEmpty = false →
      i < d.sheets.length →
      i < (route1 (fetch1 ())).length →
      (route1 (fetch1 ())).getD i [] ≠ [] →
      (∀ s ∈ (route1 (fetch1 ())).getD i [],
        jsStartsWith s (monthYearKey startDate) = true) →
      unitStep (unitStep d (d.sheets.map SheetRead.ok) startDate fetch1 route1).dest
          ((unitStep d (d.sheets.map SheetRead.ok) startDate fetch1 route1).dest.sheets.map
            SheetRead.ok)
          startDate fetch2 route2 =
        ⟨(unitStep d (d.sheets.map SheetRead.ok) startDate fetch1 route1).dest,
          "Already updated for this month", false⟩) := by
  have partA : ∀ (d : Dest) (startDate : String),
      (∃ col ∈ d.sheets, col ≠ [] ∧
        ∃ c ∈ col.tail, cellMatches (monthYearKey startDate) c = true) →
      checkExistingData (monthYearKey startDate) (d.sheets.map SheetRead.ok) = true := by
    rintro d startDate ⟨col, hmem, hne, c, hc, hmatch⟩
    rw [checkExistingData_all_ok]
    refine List.any_eq_true.mpr ⟨col, hmem, ?_⟩
    rw [Bool.and_eq_true]
    constructor
    · match col, hne with
      | a :: tl, _ =>
        simp only [List.tail_cons] at hc
        have : tl ≠ [] := List.ne_nil_of_mem hc
        have : 0 < tl.length := List.length_pos.mpr this
        simp only [List.length_cons, gt_iff_lt, decide_eq_true_eq]
        omega
    · exact List.any_eq_true.mpr ⟨c, List.mem_of_mem_tail hc, hmatch⟩
  constructor
  · intro d startDate fetch route hex
    have hgate := partA d startDate hex
    exact ⟨hgate, by simp [unitStep, hgate]⟩
  · intro d startDate fetch1 fetch2 route1 route2 i h0 h1 hi hi2 hne hdates
    by_cases hgate : checkExistingData (monthYearKey startDate) (d.sheets.map SheetRead.ok) = true
    · simp [unitStep, hgate]
    · have hgate2 : checkExistingData (monthYearKey startDate) (d.sheets.map SheetRead.ok) = false :=
        Bool.not_eq_true _ ▸ Bool.eq_false_iff.mpr hgate
      have hfirst : (unitStep d (d.sheets.map SheetRead.ok) startDate fetch1 route1).dest =
          appendRows d (route1 (fetch1 ())) := by
        simp [unitStep, hgate2, h1]
      set rows := route1 (fetch1 ()) with hrows
      have hlen : i < (appendCols d.sheets rows).length := by
        rw [appendCols_length]; exact hi
      have hcol : (appendCols d.sheets rows).getD i [] =
          d.sheets.getD i [] ++ (rows.getD i []).map Option.some :=
        appendCols_getD d.sheets rows i hi hi2
      have hgate3 : checkExistingData (monthYearKey startDate)
          ((appendRows d rows).sheets.map SheetRead.ok) = true := by
        rw [checkExistingData_all_ok]
        refine List.any_eq_true.mpr ⟨(appendCols d.sheets rows).getD i [], ?_, ?_⟩
        · exact getD_mem_of_lt _ i [] hlen
        · rw [Bool.and_eq_true]
          constructor
          · have m1 : d.sheets.getD i [] ∈ d.sheets := getD_mem_of_lt _ i [] hi
            have p1 : 0 < (d.sheets.getD i []).length := List.length_pos.mpr (h0 _ m1)
            have p2 : 0 < (rows.getD i []).length := List.length_pos.mpr hne
            rw [hcol]
            simp only [List.length_append, List.length_map, gt_iff_lt, decide_eq_true_eq]
            omega
          · obtain ⟨s, hs⟩ := List.exists_mem_of_ne_nil _ hne
            refine List.any_eq_true.mpr ⟨some s, ?_, hdates s hs⟩
            rw [hcol]
            exact List.mem_append_right _ (List.mem_map_of_mem _ hs)
      rw [hfirst]
      simp [unitStep, hgate3]

/-- Witness for C1: a destination whose Twitter sheet already holds a
March 2024 row is skipped untouched, and a first run that appends a
March 2024 row makes the second run a skip. -/
theorem dedupGate_skip_and_idempotent_witness :
    unitStep ⟨[[some "Date", some "2024-03-02"]]⟩
        ((⟨[[some "Date", some "2024-03-02"]]⟩ : Dest).sheets.map SheetRead.ok)
        "2024-03-10" (fun _ => []) (fun _ => []) =
      ⟨⟨[[some "Date", some "2024-03-02"]]⟩, "Already updated for this month", false⟩ ∧
    unitStep (unitStep ⟨[[some "Date"]]⟩
          ((⟨[[some "Date"]]⟩ : Dest).sheets.map SheetRead.ok) "2024-03-01"
          (fun _ => [⟨none, none⟩]) (fun _ => [["2024-03-05"]])).dest
        ((unitStep ⟨[[some "Date"]]⟩
          ((⟨[[some "Date"]]⟩ : Dest).sheets.map SheetRead.ok) "2024-03-01"
          (fun _ => [⟨none, none⟩]) (fun _ => [["2024-03-05"]])).dest.sheets.map SheetRead.ok)
        "2024-03-01" (fun _ => []) (fun _ => []) =
      ⟨(unitStep ⟨[[some "Date"]]⟩
          ((⟨[[some "Date"]]⟩ : Dest).sheets.map SheetRead.ok) "2024-03-01"
          (fun _ => [⟨none, none⟩]) (fun _ => [["2024-03-05"]])).dest,
        "Already updated for this month", false⟩ := by
  constructor
  · exact (dedupGate_skip_and_idempotent.1 ⟨[[some "Date", some "2024-03-02"]]⟩
      "2024-03-10" (fun _ => []) (fun _ => []) (by decide)).2
  · exact dedupGate_skip_and_idempotent.2 ⟨[[some "Date"]]⟩ "2024-03-01"
      (fun _ => [⟨none, none⟩]) (fun _ => []) (fun _ => [["2024-03-05"]]) (fun _ => []) 0
      (by decide) rfl (by decide) (by decide) (by decide) (by decide)

/-! ## Claim C2: month windows -/

theorem daysInMonth_pos (y m : Nat) : 1 ≤ daysInMonth y m := by
  unfold daysInMonth
  split
  · split <;> omega
  · split <;> omega

theorem monthsGo_eq_range (now : YMD) (hm1 : 1 ≤ now.m) (hm2 : now.m ≤ 12)
    (hd : 1 ≤ now.d) :
    ∀ (k y m : Nat), 1 ≤ m → m ≤ 12 →
      y * 12 + (m - 1) + k = now.y * 12 + (now.m - 1) + 1 →
      monthsGo now k y m =
        (List.range k).map (fun i => idxYM (y * 12 + (m - 1) + i)) := by
  intro k
  induction k with
  | zero => intro y m _ _ _; simp [monthsGo]
  | succ n ih =>
    intro y m h1 h2 hidx
    have hle : dateLE ⟨y, m, 1⟩ now = true := by
      simp only [dateLE, decide_eq_true_eq]
      omega
    rw [List.range_succ_eq_map, List.map_cons, List.map_map]
    simp only [monthsGo, hle, if_true]
    congr 1
    · simp only [idxYM]
      have e1 : (y * 12 + (m - 1) + 0) / 12 = y := by omega
      have e2 : (y * 12 + (m - 1) + 0) % 12 = m - 1 := by omega
      rw [e1, e2]
      congr 1
      omega
    · by_cases hm : m = 12
      · subst hm
        rw [if_pos rfl, ih (y + 1) 1 (by omega) (by omega) (by omega)]
        apply List.map_congr_left
        intro i _
        simp only [Function.comp_apply, idxYM]
        congr 2 <;> omega
      · rw [if_neg hm, ih y (m + 1) (by omega) (by omega) (by omega)]
        apply List.map_congr_left
        intro i _
        simp only [Function.comp_apply, idxYM]
        congr 2 <;> omega

theorem nextDate_last_day (j : Nat) :
    nextDate ⟨j / 12, j % 12 + 1, daysInMonth (j / 12) (j % 12 + 1)⟩ =
      ⟨(j + 1) / 12, (j + 1) % 12 + 1, 1⟩ := by
  unfold nextDate
  rw [if_neg (by simp)]
  by_cases h : j % 12 + 1 < 12
  · rw [if_pos h]
    simp only [YMD.mk.injEq]
    exact ⟨by omega, by omega, trivial⟩
  · rw [if_neg h]
    simp only [YMD.mk.injEq]
    exact ⟨by omega, by omega, trivial⟩

theorem chain'_map_range {α : Type} (R : α → α → Prop) (g : Nat → α)
    (hg : ∀ j, R (g j) (g (j + 1))) :
    ∀ (k s0 : Nat), List.Chain' R ((List.range k).map (fun i => g (s0 + i))) := by
  intro k
  induction k with
  | zero => intro s0; simp
  | succ n ih =>
    intro s0
    rw [List.range_succ_eq_map, List.map_cons, List.map_map]
    have hmap : (List.range n).map ((fun i => g (s0 + i)) ∘ Nat.succ) =
        (List.range n).map (fun i => g (s0 + 1 + i)) := by
      apply List.map_congr_left
      intro i _
      simp only [Function.comp_apply]
      congr 1
      omega
    rw [hmap]
    rw [List.chain'_cons']
    constructor
    · intro b hb
      cases n with
      | zero => simp at hb
      | succ n2 =>
        rw [List.range_succ_eq_map] at hb
        simp only [List.map_cons, List.head?_cons, Option.mem_def, Option.some.injEq] at hb
        rw [← hb, Nat.add_zero]
        exact hg s0
    · exact ih (s0 + 1)

/-- C2: the month window generator yields, for the boundary 2024-01-01
and a now of 2024-03-15, exactly the three windows 2024-01-01..2024-01-31,
2024-02-01..2024-02-29 and 2024-03-01..2024-03-31; in general, for a
valid boundary month and now, the produced month list starts at the
boundary month, ends at the month of now (so the final window end is the
last day of that month even when it lies in the future of now), and
consecutive structured windows are adjacent: the successor day of one
window end is the next window start, which with nonempty windows makes
the sequence ordered, gapless and non-overlapping; every window spans the
first through the last day of its own month. -/
theorem monthWindows_ordered_gapless :
    (monthWindows ⟨2024, 1, 1⟩ ⟨2024, 3, 15⟩ =
      [⟨"2024-01-01", "2024-01-31"⟩, ⟨"2024-02-01", "2024-02-29"⟩,
        ⟨"2024-03-01", "2024-03-31"⟩]) ∧
    (∀ start now : YMD, 1 ≤ start.m → start.m ≤ 12 → 1 ≤ now.m → now.m ≤ 12 →
      1 ≤ now.d →
      start.y * 12 + (start.m - 1) ≤ now.y * 12 + (now.m - 1) →
      (monthsToProcess start now).head? = some (start.y, start.m) ∧
      (monthsToProcess start now).getLast? = some (now.y, now.m) ∧
      List.Chain' (fun w w2 => nextDate w.2 = w2.1)
        ((monthsToProcess start now).map (fun p => monthWindowD p.1 p.2))) ∧
    (∀ y m : Nat, dateLE ⟨y, m, 1⟩ ⟨y, m, daysInMonth y m⟩ = true) ∧
    (∀ y m : Nat, getMonthDateRange y m =
      ⟨formatDate y m 1, formatDate y m (daysInMonth y m)⟩) := by
  refine ⟨by decide, ?_, ?_, fun y m => rfl⟩
  · intro start now hs1 hs2 hm1 hm2 hd hle
    have hK : now.y * 12 + now.m + 1 - (start.y * 12 + start.m) =
        now.y * 12 + (now.m - 1) + 1 - (start.y * 12 + (start.m - 1)) := by omega
    have hclosed : monthsToProcess start now =
        (List.range (now.y * 12 + (now.m - 1) + 1 - (start.y * 12 + (start.m - 1)))).map
          (fun i => idxYM (start.y * 12 + (start.m - 1) + i)) := by
      unfold monthsToProcess
      rw [hK]
      exact monthsGo_eq_range now hm1 hm2 hd _ start.y start.m hs1 hs2 (by omega)
    have hK1 : now.y * 12 + (now.m - 1) + 1 - (start.y * 12 + (start.m - 1)) =
        (now.y * 12 + (now.m - 1) - (start.y * 12 + (start.m - 1))) + 1 := by omega
    refine ⟨?_, ?_, ?_⟩
    · rw [hclosed, hK1, List.range_succ_eq_map, List.map_cons, List.head?_cons]
      simp only [idxYM, Option.some.injEq, Prod.mk.injEq]
      omega
    · rw [hclosed, hK1, List.range_succ, List.map_append, List.map_cons, List.map_nil,
        List.getLast?_concat]
      simp only [idxYM, Option.some.injEq, Prod.mk.injEq]
      omega
    · rw [hclosed, List.map_map]
      exact chain'_map_range (fun w w2 => nextDate w.2 = w2.1)
        (fun j => monthWindowD (idxYM j).1 (idxYM j).2)
        (fun j => nextDate_last_day j) _ _
  · intro y m
    have h := daysInMonth_pos y m
    simp only [dateLE, decide_eq_true_eq]
    exact Or.inr ⟨trivial, Or.inr ⟨trivial, h⟩⟩

/-- Witness for C2 at the boundary 2024-01-01 and now 2024-03-15. -/
theorem monthWindows_ordered_gapless_witness :
    (monthsToProcess ⟨2024, 1, 1⟩ ⟨2024, 3, 15⟩).head? = some (2024, 1) ∧
    (monthsToProcess ⟨2024, 1, 1⟩ ⟨2024, 3, 15⟩).getLast? = some (2024, 3) ∧
    List.Chain' (fun w w2 => nextDate w.2 = w2.1)
      ((monthsToProcess ⟨2024, 1, 1⟩ ⟨2024, 3, 15⟩).map (fun p => monthWindowD p.1 p.2)) :=
  monthWindows_ordered_gapless.2.1 ⟨2024, 1, 1⟩ ⟨2024, 3, 15⟩ (by decide) (by decide)
    (by decide) (by decide) (by decide) (by decide)

/-! ## Claim C7: grouping and routing -/

theorem groupDataAux_keys_nodup (dateNorm : String → String) :
    ∀ (dps : List DataPoint) (acc : List GEntry),
      (acc.map GEntry.key).Nodup →
      ((dps.foldl (groupStep dateNorm) acc).map GEntry.key).Nodup := by
  intro dps
  induction dps with
  | nil => intro acc h; exact h
  | cons dp rest ih =>
    intro acc h
    simp only [List.foldl_cons]
    apply ih
    unfold groupStep
    cases hv : validEntry dateNorm dp with
    | none => exact h
    | some e =>
      simp only
      by_cases hmem : acc.any (fun x => x.key == e.key) = true
      · rw [if_pos hmem]; exact h
      · rw [if_neg hmem, List.map_append, List.map_cons, List.map_nil, List.nodup_append]
        refine ⟨h, List.nodup_singleton _, ?_⟩
        intro a ha hb
        simp only [List.mem_singleton] at hb
        subst hb
        obtain ⟨x, hx, hxk⟩ := List.mem_map.mp ha
        exact hmem (List.any_eq_true.mpr ⟨x, hx, by simp [hxk]⟩)

theorem groupDataAux_find? (dateNorm : String → String) (k : String) :
    ∀ (dps : List DataPoint) (acc : List GEntry),
      (dps.foldl (groupStep dateNorm) acc).find? (fun x => x.key == k) =
        ((acc.find? (fun x => x.key == k)).orElse
          (fun _ => (dps.filterMap (validEntry dateNorm)).find? (fun x => x.key == k))) := by
  intro dps
  induction dps with
  | nil =>
    intro acc
    simp only [List.foldl_nil, List.filterMap_nil, List.find?_nil]
    cases acc.find? (fun x => x.key == k) <;> rfl
  | cons dp rest ih =>
    intro acc
    simp only [List.foldl_cons, List.filterMap_cons]
    rw [ih]
    unfold groupStep
    cases hv : validEntry dateNorm dp with
    | none => rfl
    | some e =>
      simp only
      by_cases hany : acc.any (fun x => x.key == e.key) = true
      · rw [if_pos hany]
        by_cases hek : (e.key == k) = true
        · have hkey : e.key = k := by simpa using hek
          obtain ⟨x, hx, hxk⟩ := List.any_eq_true.mp hany
          have hsome : (acc.find? (fun x => x.key == k)).isSome = true := by
            rw [List.find?_isSome]
            exact ⟨x, hx, by rw [← hkey]; exact hxk⟩
          obtain ⟨v, hval⟩ := Option.isSome_iff_exists.mp hsome
          simp only [List.find?_cons, hek, hval]
          rfl
        · have hekf : (e.key == k) = false := by simpa using hek
          simp only [List.find?_cons, hekf]
      · rw [if_neg hany]
        by_cases hek : (e.key == k) = true
        · simp only [List.find?_append, List.find?_cons, List.find?_nil, hek]
          cases acc.find? (fun x => x.key == k) <;> rfl
        · have hekf : (e.key == k) = false := by simpa using hek
          simp only [List.find?_append, List.find?_cons, List.find?_nil, hekf]
          cases acc.find? (fun x => x.key == k) <;> rfl

theorem routeAll_keys (fmt : Network → DataPoint → Profile → Option (List Cell))
    (profiles : List Profile) (l : List GEntry) :
    (l.filterMap (fun e => (routeEntry fmt profiles e).map (fun r => (e.key, r.1, r.2)))).map
        Prod.fst =
      (l.filter (fun e => (routeEntry fmt profiles e).isSome)).map GEntry.key := by
  induction l with
  | nil => rfl
  | cons e rest ih =>
    cases h : routeEntry fmt profiles e with
    | none => simp [List.filterMap_cons, List.filter_cons, h, ih]
    | some r => simp [List.filterMap_cons, List.filter_cons, h, ih]

/-- C7: grouping by (profile, date) keeps the first data point in arrival
order for each duplicate key: the grouped keys are pairwise distinct and
the entry found for a key equals the first valid data point with that key
in the raw batch; consequently the routed rows carry pairwise distinct
keys (at most one row per key per pass), and a grouped entry contributes
exactly one row exactly when its normalization pipeline (profile
resolution, module lookup, formatter) succeeds, for every formatter
family. -/
theorem routing_first_wins_unique_rows
    (fmt : Network → DataPoint → Profile → Option (List Cell))
    (profiles : List Profile) (dateNorm : String → String) (dps : List DataPoint) :
    ((dataByProfileAndDate dateNorm dps).map GEntry.key).Nodup ∧
    (∀ k : String, (dataByProfileAndDate dateNorm dps).find? (fun x => x.key == k) =
      (dps.filterMap (validEntry dateNorm)).find? (fun x => x.key == k)) ∧
    ((routeAll fmt profiles dateNorm dps).map Prod.fst).Nodup ∧
    (∀ e ∈ dataByProfileAndDate dateNorm dps,
      (routeEntry fmt profiles e).isSome = true ↔
        e.key ∈ (routeAll fmt profiles dateNorm dps).map Prod.fst) := by
  have hnodup : ((dataByProfileAndDate dateNorm dps).map GEntry.key).Nodup :=
    groupDataAux_keys_nodup dateNorm dps [] (by simp)
  refine ⟨hnodup, ?_, ?_, ?_⟩
  · intro k
    have := groupDataAux_find? dateNorm k dps []
    simpa [dataByProfileAndDate] using this
  · rw [routeAll, routeAll_keys]
    exact ((List.filter_sublist _).map GEntry.key).nodup hnodup
  · intro e he
    rw [routeAll, routeAll_keys]
    constructor
    · intro hs
      exact List.mem_map_of_mem _ (List.mem_filter.mpr ⟨he, hs⟩)
    · intro hk
      obtain ⟨e2, he2, hkeq⟩ := List.mem_map.mp hk
      have he2f := List.mem_filter.mp he2
      have : e2 = e := List.inj_on_of_nodup_map hnodup he2f.1 he hkeq
      rw [← this]
      exact he2f.2

/-- Witness for C7: two data points of the same profile and day collapse
to one grouped entry taken from the first data point, and the grouped
entry yields a routed row exactly because its profile resolves to the
Twitter module and the formatter returns a row. -/
theorem routing_first_wins_unique_rows_witness :
    (routeEntry (fun _ _ _ => some [])
        [⟨"A", "twitter_profile", "n1", JSVal.num 5⟩]
        ⟨"5_2024-01-15", JSVal.num 5, "2024-01-15",
          ⟨some ⟨some (JSVal.num 5), some "2024-01-15T00:00:00", none⟩,
            some [("likes", 1)]⟩⟩).isSome = true ↔
      ("5_2024-01-15" : String) ∈
        (routeAll (fun _ _ _ => some [])
          [⟨"A", "twitter_profile", "n1", JSVal.num 5⟩] jsIsoDate
          [⟨some ⟨some (JSVal.num 5), some "2024-01-15T00:00:00", none⟩, some [("likes", 1)]⟩,
            ⟨some ⟨some (JSVal.num 5), some "2024-01-15T08:00:00", none⟩,
              some [("likes", 2)]⟩]).map Prod.fst := by
  have h := (routing_first_wins_unique_rows (fun _ _ _ => some [])
    [⟨"A", "twitter_profile", "n1", JSVal.num 5⟩] jsIsoDate
    [⟨some ⟨some (JSVal.num 5), some "2024-01-15T00:00:00", none⟩, some [("likes", 1)]⟩,
      ⟨some ⟨some (JSVal.num 5), some "2024-01-15T08:00:00", none⟩,
        some [("likes", 2)]⟩]).2.2.2
    ⟨"5_2024-01-15", JSVal.num 5, "2024-01-15",
      ⟨some ⟨some (JSVal.num 5), some "2024-01-15T00:00:00", none⟩, some [("likes", 1)]⟩⟩
    (by decide)
  convert h using 2
